import Mathlib

/-!
Shallow embedding of the `w` repository (src/sync.py and src/asynk.py): a small
pipeline that scrapes a catalog of compressed forecast-grid files from an HTTP
index page, downloads and caches them, computes per-interval delta grids between
temporally adjacent entries, and serializes each delta in the `wgf4` binary
format (28-byte int32 header, 4-byte float32 sentinel, row-major float32 payload).

Modelling conventions:
- Python `bytes` values are `List Nat` (one byte per element).
- Python `str` filenames are `List Char`.
- Grid cells are `Option ℚ`: `none` models a NaN / missing cell (NaN propagates
  through subtraction and is replaced by `fillna`), `some q` an ordinary value.
  Exact rationals stand in for the floating-point cell values; the claims under
  study concern value flow and layout, not rounding of cell arithmetic.
- The network, the bz2 decompressor and the external cfgrib decoder are oracles
  passed in as function parameters; the filesystem is an explicit association
  list from paths to file contents.
-/

/- ======================== SourceCatalog (src/sync.py:19-34, src/asynk.py:21-36) ======================== -/

/-- Newline separator: the scraper does `content.split(b"\n")`. -/
def NEWLINE : List Nat := [10]

/-- The bytes of the literal `href=` followed by a double quote
(the marker `href="` that `get_queue_of_sorces` splits on). -/
def HREF_MARK : List Nat := [104, 114, 101, 102, 61, 34]

/-- The bytes of a double quote followed by `>` (the marker `">` that closes an anchor). -/
def CLOSE_MARK : List Nat := [34, 62]

/-- The bytes of the projection marker `lat-lon` that selects eligible entries. -/
def LATLON : List Nat := [108, 97, 116, 45, 108, 111, 110]

/-- Python's `needle in hay` on `bytes`: `needle` occurs as a contiguous
subsequence of `hay` (equivalently, it is a prefix of some suffix). -/
def containsSeq (needle : List Nat) : List Nat → Bool
  | [] => needle.isPrefixOf []
  | x :: xs => needle.isPrefixOf (x :: xs) || containsSeq needle xs

/-- Worker for `splitOnSeq`; `fuel` bounds recursion depth and is initialized to
the length of the input so the `0` branch is unreachable (each step consumes at
least one input byte).  `acc` holds the bytes of the current chunk, reversed. -/
def splitGo (sep : List Nat) : Nat → List Nat → List Nat → List (List Nat)
  | _, [], acc => [acc.reverse]
  | 0, s, acc => [acc.reverse ++ s]
  | fuel + 1, x :: xs, acc =>
    if sep.isPrefixOf (x :: xs) then
      acc.reverse :: splitGo sep fuel (List.drop (sep.length - 1) xs) []
    else
      splitGo sep fuel xs (x :: acc)

/-- Python `bytes.split(sep)` for a non-empty separator: cut the input at every
non-overlapping occurrence of `sep`, scanning left to right.  (Python raises on
an empty separator; all separators used by the scraper are non-empty.) -/
def splitOnSeq (sep s : List Nat) : List (List Nat) := splitGo sep s.length s []

/-- One iteration of the scraper loop body (`for line in content.split(b"\n")`):
`items = line.split(b'\">')[0].split(b'href=\"')`; lines whose prefix before the
first `">` does not contain exactly one `href="` are skipped; the extracted href
is kept only when it contains the `lat-lon` marker.  Appending at the end of
`result` models `deque.append` / `list.append`. -/
def catalogStep (result : List (List Nat)) (line : List Nat) : List (List Nat) :=
  let items := splitOnSeq HREF_MARK ((splitOnSeq CLOSE_MARK line).headD [])
  if items.length ≠ 2 then result
  else if containsSeq LATLON (items.getD 1 []) then result ++ [items.getD 1 []]
  else result

/-- Embeds `get_queue_of_sorces` (identical in both variants): scan the index
document line by line and collect the selected hrefs in document order.
Decoding of the (ASCII) href bytes to `str` is modelled as the identity. -/
def get_queue_of_sorces (content : List Nat) : List (List Nat) :=
  (splitOnSeq NEWLINE content).foldl catalogStep []

/-- The contribution of a single line to the catalog: `some href` when the part
of the line before its first `">` contains exactly one `href="` and the text
after that marker contains the `lat-lon` marker, else `none`. -/
def lineHref (line : List Nat) : Option (List Nat) :=
  let items := splitOnSeq HREF_MARK ((splitOnSeq CLOSE_MARK line).headD [])
  if items.length ≠ 2 then none
  else if containsSeq LATLON (items.getD 1 []) then some (items.getD 1 [])
  else none

example : splitOnSeq NEWLINE [1, 10, 2, 3, 10] = [[1], [2, 3], []] := by decide

example :
    get_queue_of_sorces
      ([60, 97, 32] ++ HREF_MARK ++ LATLON ++ [46, 98, 122, 50] ++ CLOSE_MARK) =
      [LATLON ++ [46, 98, 122, 50]] := by decide

/- ======================== Fetcher (src/sync.py:37-54, src/asynk.py:64-82) ======================== -/

/-- Observable side effects of the retry loop: one HTTP GET per attempt, and a
`time.sleep(secs)` call. -/
inductive NetEv where
  | get : NetEv
  | sleep : Nat → NetEv
deriving DecidableEq, Repr

/-- Python exceptions that could escape an embedded function.  The spec's error
taxonomy names a `NetworkError`; the source defines no such class, but the type
lets the statement "fails with NetworkError" be expressed and settled. -/
inductive PyErr where
  | networkError : PyErr
deriving DecidableEq, Repr

/-- The retry loop of `get_content` / `get_content_async`.
`resp a` is the outcome of attempt number `a` (0-based): `some bytes` for a 200
response with that body, `none` when `requests.get`/`aiohttp` raises or the
status check fails.  `rem` is the number of attempts the `attempts < 10` guard
still allows.  A failed attempt prints, then sleeps 2 seconds, and the loop
retries; a successful attempt stores the content, ending the loop. -/
def getContentGo (resp : Nat → Option (List Nat)) : Nat → Nat → Option (List Nat) × List NetEv
  | _, 0 => (none, [])
  | attempts, rem + 1 =>
    match resp attempts with
    | some b => (some b, [NetEv.get])
    | none =>
      let r := getContentGo resp (attempts + 1) rem
      (r.1, NetEv.get :: NetEv.sleep 2 :: r.2)

/-- Embeds `get_content` (sync) and `get_content_async` (async), which share the
same control flow.  Every exception inside the loop body is caught by its
`except Exception` clause and the function ends with a plain `return content`,
so the embedded result is always `Except.ok`; after ten failed attempts the
returned content is `none` (Python `None`). -/
def get_content (resp : Nat → Option (List Nat)) :
    Except PyErr (Option (List Nat)) × List NetEv :=
  (Except.ok (getContentGo resp 0 10).1, (getContentGo resp 0 10).2)

/-- A response oracle under which every attempt fails. -/
def allFail : Nat → Option (List Nat) := fun _ => none

example : (get_content allFail).1 = Except.ok none := rfl
example : ((get_content allFail).2.count NetEv.get) = 10 := rfl
example : (get_content (fun _ => some [1])).2 = [NetEv.get] := rfl

/- ======================== CacheStore (src/sync.py:57-67, src/asynk.py:60-61 and 85-96) ======================== -/

/-- `BASE_URL`, as a character list. -/
def BASE_URL : List Char :=
  "https://opendata.dwd.de/weather/nwp/icon-d2/grib/12/tot_prec/".toList

/-- Embeds `get_filename` (async) and the first line of `get_dataset` (sync):
`"{}/{}".format(CACHE_DIR, bz2filename[:-4])` with `CACHE_DIR = ".cache"`.
Python's `s[:-4]` keeps all but the last four characters (and yields the empty
string when `len(s) <= 4`), which `List.take (length - 4)` reproduces. -/
def get_filename (bz2filename : List Char) : List Char :=
  ".cache/".toList ++ bz2filename.take (bz2filename.length - 4)

/-- The last four characters of a name (the compression suffix the cache key
strips); for names of length at most four this is the whole name. -/
def sfx4 (name : List Char) : List Char := name.drop (name.length - 4)

/-- The filesystem visible to the cache: an association list from paths to file
contents.  `Path(p).exists()` is `lookupFS fs p ≠ none`. -/
abbrev FS := List (List Char × List Nat)

/-- File lookup by path. -/
def lookupFS : FS → List Char → Option (List Nat)
  | [], _ => none
  | (k, v) :: rest, key => if k = key then some v else lookupFS rest key

/-- Embeds the caching core shared by sync `get_dataset` (lines 57-67) and async
`download_dataset` (lines 85-96): if the decompressed target path exists the
function does nothing; otherwise it fetches `BASE_URL + bz2filename`,
decompresses in memory, and writes the result to the target path.  `fetch` and
`decomp` are oracles for the network content and `bz2.decompress`; the third
result component counts network fetches performed by the call. -/
def ensureCached (fetch : List Char → List Nat) (decomp : List Nat → List Nat)
    (fs : FS) (bz2filename : List Char) : FS × List Char × Nat :=
  match lookupFS fs (get_filename bz2filename) with
  | some _ => (fs, get_filename bz2filename, 0)
  | none =>
    ((get_filename bz2filename, decomp (fetch (BASE_URL ++ bz2filename))) :: fs,
      get_filename bz2filename, 1)

example :
    (ensureCached (fun _ => [1, 2]) id [] "a.bz2".toList).2.2 = 1 := by decide
example :
    (ensureCached (fun _ => [1, 2]) id
      (ensureCached (fun _ => [1, 2]) id [] "a.bz2".toList).1 "a.bz2".toList).2.2 = 0 := by decide

/- ======================== DeltaEngine (src/sync.py:105-110, src/asynk.py:155-168) ======================== -/

/-- The sentinel constant `EMPY_VALUE = -100500.0` (sic, as spelled in the source). -/
def EMPY_VALUE : ℚ := -100500

/-- A decoded grid: a 2-D array of cells, `none` modelling a NaN cell. -/
abbrev Grid := List (List (Option ℚ))

/-- Cellwise subtraction with NaN propagation: NaN minus anything and anything
minus NaN are NaN, as for IEEE floats under xarray subtraction. -/
def subCell (a b : Option ℚ) : Option ℚ :=
  match a, b with
  | some x, some y => some (x - y)
  | _, _ => none

/-- `dataset - prev` for two grids with identical coordinates: positionwise
subtraction of the 2-D arrays. -/
def sub (g1 g2 : Grid) : Grid :=
  List.zipWith (fun r1 r2 => List.zipWith subCell r1 r2) g1 g2

/-- `DataArray.fillna(EMPY_VALUE)`: every NaN cell is replaced by the sentinel;
every resulting cell is an ordinary value (`some`). -/
def fillna (g : Grid) : Grid :=
  g.map (fun r => r.map (fun c => some (c.getD EMPY_VALUE)))

/-- Embeds sync `get_values` (src/sync.py:105-110).  Aliasing note: in the
source, `result = dataset` binds a second name to the same xarray object and
`result -= prev_values` is an in-place subtraction that mutates that shared
object, so when `prev_values` is present the function returns
`(the difference with NaNs filled, the unfilled difference)` — the second
component, which `main` carries forward as the next `prev_values`, is NOT the
original `dataset`.  When `prev_values` is `None`, no subtraction happens and
the second component is the unmodified `dataset`. -/
def get_values (dataset : Grid) (prev_values : Option Grid) : Grid × Grid :=
  match prev_values with
  | none => (fillna dataset, dataset)
  | some p => (fillna (sub dataset p), sub dataset p)

/-- The value a filled cell of a delta grid ends up with: the difference when
both operands are ordinary values, the sentinel when either is NaN. -/
def deltaCell (a b : Option ℚ) : ℚ :=
  match a, b with
  | some x, some y => x - y
  | _, _ => EMPY_VALUE

/-- The processing loop of sync `main` (src/sync.py:136-153) on its success
path, starting from a carried value `prev`: each iteration emits
`(get_values g (some prev)).1` and carries `(get_values g (some prev)).2`
(the mutated `dataset`) into the next iteration. -/
def syncGo (prev : Grid) : List Grid → List Grid
  | [] => []
  | g :: gs => (get_values g (some prev)).1 :: syncGo (get_values g (some prev)).2 gs

/-- The emitted delta grids of a full sync run over the decoded grids of the
catalog entries, in catalog order (src/sync.py:126-153): the first entry only
initializes `prev_values` (via `get_values` with `prev_values=None`, whose
FIRST component — the NaN-filled grid — is bound to `prev_values`) and emits
nothing; every later entry emits one grid.  On an empty catalog `main` raises
`IndexError` at `filenames[0]` and emits nothing. -/
def syncRun : List Grid → List Grid
  | [] => []
  | g0 :: rest => syncGo (get_values g0 none).1 rest

/-- The delta written by async `process(filenames, index)` (src/asynk.py:155-168)
for one adjacent pair: `(dataset - prev_dataset).fillna(EMPY_VALUE)`, both grids
freshly reloaded from the cache, with no aliasing. -/
def asyncPairDelta (prev_dataset dataset : Grid) : Grid :=
  fillna (sub dataset prev_dataset)

/-- Worker for `asyncRun`: emit `asyncPairDelta` of each adjacent pair. -/
def asyncGo (prev : Grid) : List Grid → List Grid
  | [] => []
  | g :: gs => asyncPairDelta prev g :: asyncGo g gs

/-- The emitted delta grids of a full async run (src/asynk.py:193-197):
`process(filenames, i)` for `i in range(1, len(filenames))`, each pair loaded
fresh, so entry `k` emits `fillna (grid_k - grid_(k-1))`. -/
def asyncRun : List Grid → List Grid
  | [] => []
  | g0 :: rest => asyncGo g0 rest

example :
    syncRun [[[some 1]], [[some 3]], [[some 6]]] = [[[some 2]], [[some 4]]] := by
  norm_num [syncRun, syncGo, get_values, sub, fillna, subCell]
example :
    asyncRun [[[some 1]], [[some 3]], [[some 6]]] = [[[some 2]], [[some 3]]] := by
  norm_num [asyncRun, asyncGo, asyncPairDelta, sub, fillna, subCell]
example : (get_values [[none]] none).1 = [[some EMPY_VALUE]] := by
  norm_num [get_values, fillna]

/- ======================== GridWriter header (src/sync.py:79-102, src/asynk.py:115-138) ======================== -/

/-- The scale factor `MULT = 1000000`. -/
def MULT : ℚ := 1000000

/-- Python `int(q)` on an exact value: truncation toward zero
(`Int.tdiv` is T-division, which rounds toward zero). -/
def pyInt (q : ℚ) : ℤ := q.num.tdiv q.den

/-- Embeds `normalize_tuple(*args)`: `[int(item * MULT) for item in args]`.
Every argument — including the constant `1` passed as the last header field —
goes through the same scaling. -/
def normalize_tuple (args : List ℚ) : List ℤ :=
  args.map (fun item => pyInt (item * MULT))

/-- The metadata of a decoded dataset used by `get_header`: the four GRIB
boundary coordinates and the two direction increments, as exact rationals. -/
structure Dataset where
  lat_first : ℚ
  lat_last : ℚ
  lon_first : ℚ
  lon_last : ℚ
  i_inc : ℚ
  j_inc : ℚ
deriving DecidableEq, Repr

/-- The seven integers `get_header` packs, in source field order
(src/sync.py:90-102): note that the trailing constant `1` is an argument of
`normalize_tuple` and is therefore also multiplied by `MULT`. -/
def get_header_ints (d : Dataset) : List ℤ :=
  normalize_tuple
    [d.lat_first, d.lat_last, d.lon_first, d.lon_last, d.i_inc, d.j_inc, 1]

/-- Four little-endian bytes of a 32-bit word. -/
def le32 (w : Nat) : List Nat :=
  [w % 256, w / 256 % 256, w / 65536 % 256, w / 16777216 % 256]

/-- `struct.pack('i', n)`: the four bytes of a signed 32-bit integer, two's
complement, native (little-endian) byte order.  (`struct.pack` raises on values
outside the int32 range; all header values under study are in range.) -/
def int32le (n : ℤ) : List Nat := le32 ((n % 4294967296).toNat)

/-- Embeds `get_header`: `struct.pack('i' * 7, *normalize_tuple(...))`, the
28 header bytes. -/
def get_header (d : Dataset) : List Nat :=
  ((get_header_ints d).map int32le).flatten

/-- Rounding to the nearest integer (ties to even do not arise at the inputs
used below, where round-half-up and round-half-even agree), following the
spec's wording `round(value * 1e6)`; for comparison with `pyInt`, which
truncates. -/
def roundSpec (q : ℚ) : ℤ := (q + 1 / 2).num.fdiv (q + 1 / 2).den

/-- The example dataset of the spec's header round-trip property:
`lat0=47.5, lat1=55.5, lon0=5.0, lon1=17.0, di=0.02, dj=0.02`. -/
def exampleDS : Dataset :=
  { lat_first := 95 / 2, lat_last := 111 / 2, lon_first := 5, lon_last := 17
    i_inc := 1 / 50, j_inc := 1 / 50 }

example :
    get_header_ints exampleDS =
      [47500000, 55500000, 5000000, 17000000, 20000, 20000, 1000000] := by
  norm_num [get_header_ints, normalize_tuple, pyInt, MULT, exampleDS]
example : (get_header exampleDS).length = 28 := rfl

/- ======================== GridWriter body (src/sync.py:113-123, src/asynk.py:141-152) ======================== -/

/-- The IEEE-754 binary32 bit pattern of `-100500.0`, i.e. the word
`struct.pack('f', EMPY_VALUE)` writes: sign 1, biased exponent 143,
mantissa field 4475392 (100500 = 0x18894 has 17 significant bits, so the value
is exact in binary32); the word is 0xC7C44A00. -/
def EMPY_F32 : Nat := 3351529984

/-- `struct.pack('f' * len(line), *line)` for one row of the payload: for the
byte-layout claims a float32 cell is represented directly by its 32-bit
pattern, which `struct.pack('f', _)` serializes as exactly four bytes. -/
def packRow (row : List Nat) : List Nat := (row.map le32).flatten

/-- Embeds sync `write_data` (src/sync.py:113-123): the byte sequence the calls
`output.write(header)`, `output.write(struct.pack('f', EMPY_VALUE))` and the
per-row writes of the loop append to `PRATE.wgf4`, in that order. -/
def write_data (header : List Nat) (values : List (List Nat)) : List Nat :=
  header ++ le32 EMPY_F32 ++ (values.map packRow).flatten

/-- Embeds async `write_data` (src/asynk.py:141-152): `value` starts as
`header + struct.pack('f', EMPY_VALUE)` and each row is concatenated onto it;
the accumulated buffer is then written in one call. -/
def write_data_async (header : List Nat) (values : List (List Nat)) : List Nat :=
  values.foldl (fun acc row => acc ++ packRow row) (header ++ le32 EMPY_F32)

example :
    (write_data (get_header exampleDS) [[1, 2, 3], [4, 5, 6]]).length = 32 + 4 * 6 := rfl

/- ======================== Pipeline orchestration (src/sync.py:126-153, src/asynk.py:181-197) ======================== -/

/-- `n` iterations of the sync `while filenames:` processing loop
(src/sync.py:136-153), with an oracle `fails k` telling whether iteration
number `k` raises anywhere inside the `try` block.  A failing iteration only
prints the exception (the `except` branch has no sleep and no counter) and
loops again with the queue unchanged — `filenames.popleft()` is skipped; a
successful iteration removes the head entry and emits it.  Returns the final
queue and the entries emitted, in order. -/
def syncLoopRun (fails : Nat → Bool) : Nat → Nat → List (List Char) →
    List (List Char) × List (List Char)
  | 0, _, q => (q, [])
  | _ + 1, _, [] => ([], [])
  | n + 1, k, e :: rest =>
    if fails k then
      syncLoopRun fails n (k + 1) (e :: rest)
    else
      let r := syncLoopRun fails n (k + 1) rest
      (r.1, e :: r.2)

/-- The async processing stage worker: `process(filenames, i)` is called for
each index `i` in the given list; `fails i` tells whether that call raises.
The `for` loop in async `main` (src/asynk.py:194-196) has no `try`, so the
first failure propagates out of `main` uncaught and aborts the run: the result
pairs the indices processed successfully with `some i` for the aborting index
(`none` when no call fails). -/
def asyncMainRun (fails : Nat → Bool) : List Nat → List Nat × Option Nat
  | [] => ([], none)
  | i :: rest =>
    if fails i then ([], some i)
    else
      let r := asyncMainRun fails rest
      (i :: r.1, r.2)

/-- The async processing stage over a catalog of `n` entries:
`for i in range(1, len(filenames)): process(filenames, i)`. -/
def asyncMain (fails : Nat → Bool) (n : Nat) : List Nat × Option Nat :=
  asyncMainRun fails (List.range' 1 (n - 1))

example : syncLoopRun (fun _ => true) 5 0 ["a".toList] = (["a".toList], []) := by decide
example : asyncMain (fun k => k == 2) 5 = ([1], some 2) := by decide

/- ======================== Catalog claims (C7) ======================== -/

/-- One scraper iteration appends exactly the line's contribution. -/
theorem catalogStep_eq (res : List (List Nat)) (line : List Nat) :
    catalogStep res line = res ++ (lineHref line).toList := by
  simp only [catalogStep, lineHref]
  split
  · simp
  · split <;> simp

/-- The scraper fold is a `filterMap` over the document's lines. -/
theorem foldl_catalogStep (lines : List (List Nat)) :
    ∀ acc, lines.foldl catalogStep acc = acc ++ lines.filterMap lineHref := by
  induction lines with
  | nil => intro acc; simp
  | cons x xs ih =>
    intro acc
    rw [List.foldl_cons, ih, catalogStep_eq, List.filterMap_cons]
    cases h : lineHref x <;> simp

/-- A line's contribution always contains the projection marker. -/
theorem lineHref_marker (line r : List Nat) (h : lineHref line = some r) :
    containsSeq LATLON r = true := by
  simp only [lineHref] at h
  split at h
  · exact absurd h (by simp)
  · split at h
    · cases h; assumption
    · exact absurd h (by simp)

/-- Follows the claim's (and spec §4.3's) words, for comparison with the
implementation: "the hrefs" of an index document are the texts between each
literal `href="` marker and the following `">`, collected left to right over
the whole document; `fuel` is initialized to the document length (each step
consumes at least one byte, so the `0` branch is unreachable). -/
def hrefsSpec : Nat → List Nat → List (List Nat)
  | 0, _ => []
  | _ + 1, [] => []
  | fuel + 1, x :: xs =>
    if HREF_MARK.isPrefixOf (x :: xs) && containsSeq CLOSE_MARK (List.drop 6 (x :: xs)) then
      let after := List.drop 6 (x :: xs)
      let href := (splitOnSeq CLOSE_MARK after).headD []
      href :: hrefsSpec fuel (after.drop (href.length + 2))
    else hrefsSpec fuel xs

/-- Follows the claim's words: exactly the hrefs of the document that contain
the projection marker, in original document order. -/
def discoverSpec (content : List Nat) : List (List Nat) :=
  (hrefsSpec content.length content).filter (containsSeq LATLON)

example :
    discoverSpec ([60, 97, 32] ++ HREF_MARK ++ LATLON ++ [46, 98, 122, 50] ++ CLOSE_MARK) =
      [LATLON ++ [46, 98, 122, 50]] := by decide

/-- C7 counterexample: on the single-line document `x"> href="lat-lon-z">`
(the bytes below), the code returns no entries — the line is discarded because
no `href="` occurs before the line's FIRST `">` — even though the document
contains the href `lat-lon-z` (text between its `href="` marker and the
following `">`), which contains the projection marker; so `discover` does not
return "exactly the hrefs that contain the projection marker". -/
theorem c7_counterexample :
    get_queue_of_sorces
        ([120, 34, 62, 32] ++ HREF_MARK ++ [108, 97, 116, 45, 108, 111, 110, 45, 122] ++ CLOSE_MARK)
      = []
    ∧ discoverSpec
        ([120, 34, 62, 32] ++ HREF_MARK ++ [108, 97, 116, 45, 108, 111, 110, 45, 122] ++ CLOSE_MARK)
      = [[108, 97, 116, 45, 108, 111, 110, 45, 122]]
    ∧ ([] : List (List Nat)) ≠ [[108, 97, 116, 45, 108, 111, 110, 45, 122]] := by decide

/-- C7 (amended): `discover` works line by line — a line contributes an entry
exactly when the part of the line before its first `">` contains exactly one
`href="` marker and the text between them contains the projection marker; the
entries are those contributions in original document order without re-sorting
(a `filterMap` over the lines), and every returned entry contains the marker. -/
theorem c7_theorem (content : List Nat) :
    get_queue_of_sorces content = (splitOnSeq NEWLINE content).filterMap lineHref
    ∧ ∀ r ∈ get_queue_of_sorces content, containsSeq LATLON r = true := by
  have h := foldl_catalogStep (splitOnSeq NEWLINE content) []
  rw [List.nil_append] at h
  refine ⟨h, ?_⟩
  intro r hr
  rw [get_queue_of_sorces, h] at hr
  obtain ⟨line, _, hsome⟩ := List.mem_filterMap.mp hr
  exact lineHref_marker line r hsome

/-- C7 witness: the amended characterization evaluated on a concrete two-line
document with one eligible and one ineligible entry. -/
theorem c7_witness :
    get_queue_of_sorces
        ([60, 97, 32] ++ HREF_MARK ++ LATLON ++ [46, 98, 122, 50] ++ CLOSE_MARK ++ NEWLINE
          ++ [60, 97, 32] ++ HREF_MARK ++ [111, 116, 104, 101, 114] ++ CLOSE_MARK)
      = (splitOnSeq NEWLINE
          ([60, 97, 32] ++ HREF_MARK ++ LATLON ++ [46, 98, 122, 50] ++ CLOSE_MARK ++ NEWLINE
            ++ [60, 97, 32] ++ HREF_MARK ++ [111, 116, 104, 101, 114] ++ CLOSE_MARK)).filterMap lineHref :=
  (c7_theorem _).1

/- ======================== Fetcher claims (C5) ======================== -/

/-- Occurrence count of an event in a trace. -/
def countEv (e : NetEv) : List NetEv → Nat
  | [] => 0
  | x :: xs => (if x = e then 1 else 0) + countEv e xs

/-- The retry loop issues at most one GET per remaining attempt. -/
theorem getContentGo_get_le (resp : Nat → Option (List Nat)) :
    ∀ rem att, countEv NetEv.get (getContentGo resp att rem).2 ≤ rem := by
  intro rem
  induction rem with
  | zero => intro att; simp [getContentGo, countEv]
  | succ n ih =>
    intro att
    simp only [getContentGo]
    cases h : resp att with
    | some b => simp [countEv]
    | none =>
      have := ih (att + 1)
      simp [countEv]
      omega

/-- Every sleep in the trace is the fixed 2-second pause. -/
theorem getContentGo_sleep_two (resp : Nat → Option (List Nat)) :
    ∀ rem att s, NetEv.sleep s ∈ (getContentGo resp att rem).2 → s = 2 := by
  intro rem
  induction rem with
  | zero => intro att s h; simp [getContentGo] at h
  | succ n ih =>
    intro att s h
    simp only [getContentGo] at h
    cases hr : resp att with
    | some b => rw [hr] at h; simp at h
    | none =>
      rw [hr] at h
      simp only [List.mem_cons] at h
      rcases h with h | h | h
      · exact absurd h (by simp)
      · cases h; rfl
      · exact ih (att + 1) s h

/-- When every allowed attempt fails, the loop performs exactly `rem` GETs and
`rem` two-second sleeps and ends with no content. -/
theorem getContentGo_exhaust (resp : Nat → Option (List Nat)) :
    ∀ rem att, (∀ a, att ≤ a → a < att + rem → resp a = none) →
      (getContentGo resp att rem).1 = none
      ∧ countEv NetEv.get (getContentGo resp att rem).2 = rem
      ∧ countEv (NetEv.sleep 2) (getContentGo resp att rem).2 = rem := by
  intro rem
  induction rem with
  | zero => intro att _; simp [getContentGo, countEv]
  | succ n ih =>
    intro att hfail
    have hatt : resp att = none := hfail att (Nat.le_refl att) (by omega)
    obtain ⟨h1, h2, h3⟩ := ih (att + 1) (fun a ha hb => hfail a (by omega) (by omega))
    simp [getContentGo, hatt, countEv, h1, h2, h3]
    omega

/-- C5 counterexample: under a response oracle for which every attempt fails,
all ten attempts are exhausted (ten GETs, ten 2-second sleeps) and
`get_content` RETURNS, with content `None` — it does not fail with a
`NetworkError` (the source defines no such exception and the loop swallows
every exception), contradicting the claim's final clause. -/
theorem c5_counterexample :
    (get_content allFail).1 = Except.ok none
    ∧ (get_content allFail).1 ≠ Except.error PyErr.networkError
    ∧ countEv NetEv.get (get_content allFail).2 = 10
    ∧ countEv (NetEv.sleep 2) (get_content allFail).2 = 10 :=
  ⟨rfl, fun h => Except.noConfusion h, rfl, rfl⟩

/-- C5 (amended): for every URL (response oracle), `fetch` issues one GET per
attempt, makes at most 10 attempts, pauses a fixed 2 seconds after any failed
attempt, and never raises: when all 10 attempts are exhausted it returns
normally with no content (Python `None`); downstream code then fails on the
missing content.  A success on the first attempt performs exactly one GET and
no sleep. -/
theorem c5_theorem (resp : Nat → Option (List Nat)) :
    countEv NetEv.get (get_content resp).2 ≤ 10
    ∧ (∀ s, NetEv.sleep s ∈ (get_content resp).2 → s = 2)
    ∧ (∃ v, (get_content resp).1 = Except.ok v)
    ∧ ((∀ a, a < 10 → resp a = none) →
        (get_content resp).1 = Except.ok none
        ∧ countEv NetEv.get (get_content resp).2 = 10
        ∧ countEv (NetEv.sleep 2) (get_content resp).2 = 10)
    ∧ (∀ b, resp 0 = some b →
        (get_content resp).1 = Except.ok (some b) ∧ (get_content resp).2 = [NetEv.get]) := by
  refine ⟨getContentGo_get_le resp 10 0, fun s h => getContentGo_sleep_two resp 10 0 s h,
    ⟨(getContentGo resp 0 10).1, rfl⟩, ?_, ?_⟩
  · intro h
    have := getContentGo_exhaust resp 10 0 (fun a _ h2 => h a (by omega))
    exact ⟨by simp [get_content, this.1], this.2.1, this.2.2⟩
  · intro b hb
    simp [get_content, getContentGo, hb]

/-- C5 witness: the amended theorem's exhaustion clause evaluated at the
all-failures oracle. -/
theorem c5_witness :
    (get_content allFail).1 = Except.ok none
    ∧ countEv NetEv.get (get_content allFail).2 = 10
    ∧ countEv (NetEv.sleep 2) (get_content allFail).2 = 10 :=
  (c5_theorem allFail).2.2.2.1 (fun _ _ => rfl)

/- ======================== Cache claims (C6, C9, C10) ======================== -/

/-- C6: `ensureCached` is idempotent.  When the decompressed target path
already exists, the call performs no network fetch, changes nothing and
returns that path; when it does not yet exist, the first call performs exactly
one fetch and the second call for the same entry performs zero fetches and
leaves the filesystem unchanged — so two calls (also across runs, the
filesystem being persistent state) perform exactly one fetch in total. -/
theorem c6_theorem (fetch : List Char → List Nat) (decomp : List Nat → List Nat)
    (fs : FS) (name : List Char) :
    ((lookupFS fs (get_filename name)).isSome = true →
      ensureCached fetch decomp fs name = (fs, get_filename name, 0))
    ∧ (lookupFS fs (get_filename name) = none →
      (ensureCached fetch decomp fs name).2.2 = 1
      ∧ (ensureCached fetch decomp (ensureCached fetch decomp fs name).1 name).2.2 = 0
      ∧ (ensureCached fetch decomp (ensureCached fetch decomp fs name).1 name).1
          = (ensureCached fetch decomp fs name).1) := by
  constructor
  · intro h
    unfold ensureCached
    cases hl : lookupFS fs (get_filename name) with
    | none => rw [hl] at h; simp at h
    | some v => rfl
  · intro h
    unfold ensureCached
    rw [h]
    simp [lookupFS]

/-- C6 witness: a cold cache, a concrete entry name, and two consecutive
calls: one fetch, then zero. -/
theorem c6_witness :
    (ensureCached (fun _ => [1, 2]) id [] "a.bz2".toList).2.2 = 1
    ∧ (ensureCached (fun _ => [1, 2]) id
        (ensureCached (fun _ => [1, 2]) id [] "a.bz2".toList).1 "a.bz2".toList).2.2 = 0
    ∧ (ensureCached (fun _ => [1, 2]) id
        (ensureCached (fun _ => [1, 2]) id [] "a.bz2".toList).1 "a.bz2".toList).1
        = (ensureCached (fun _ => [1, 2]) id [] "a.bz2".toList).1 :=
  (c6_theorem (fun _ => [1, 2]) id [] "a.bz2".toList).2 rfl

/-- C9 counterexample: the entry names `a.bz2` and `a.tar` are distinct but
map to the same cache path `.cache/a` — stripping the last four characters is
not injective on arbitrary names, so the claimed injectivity for "every two
distinct logical entry names" fails (the catalog filter requires only that a
href contain `lat-lon`, not that it end in `.bz2`). -/
theorem c9_counterexample :
    get_filename "a.bz2".toList = get_filename "a.tar".toList
    ∧ "a.bz2".toList ≠ "a.tar".toList := by decide

/-- C9 (amended): the name-to-cache-path map is injective on names that agree
on their last four characters (in particular on the real catalog's names,
which all carry the same `.bz2` compression suffix): equal cache paths force
equal names. -/
theorem c9_theorem (a b : List Char) (hs : sfx4 a = sfx4 b)
    (h : get_filename a = get_filename b) : a = b := by
  unfold get_filename at h
  have ht : a.take (a.length - 4) = b.take (b.length - 4) := List.append_cancel_left h
  unfold sfx4 at hs
  calc a = a.take (a.length - 4) ++ a.drop (a.length - 4) := (List.take_append_drop _ _).symm
    _ = b.take (b.length - 4) ++ b.drop (b.length - 4) := by rw [ht, hs]
    _ = b := List.take_append_drop _ _

/-- C9 witness: the amended injectivity applied at concrete equal-suffix names. -/
theorem c9_witness : "x.bz2".toList = "x.bz2".toList :=
  c9_theorem "x.bz2".toList "x.bz2".toList rfl rfl

/-- A concrete two-byte network oracle for witnesses. -/
def tinyFetch : List Char → List Nat := fun _ => [7, 8]

/-- C10: the cache write is not atomic.  If a run dies after `open(filename,
"wb")` has created the cache file but only `written` of the decompressed bytes
have been written (`written` less than the full length), the cache path holds
a strict prefix of the data; a later `ensureCached` call for the same entry
sees that the path exists, performs no fetch, and leaves the partial file in
place. -/
theorem c10_theorem (fetch : List Char → List Nat) (decomp : List Nat → List Nat)
    (fs : FS) (name : List Char) (written : Nat)
    (hw : written < (decomp (fetch (BASE_URL ++ name))).length) :
    lookupFS ((get_filename name, (decomp (fetch (BASE_URL ++ name))).take written) :: fs)
        (get_filename name)
      = some ((decomp (fetch (BASE_URL ++ name))).take written)
    ∧ (decomp (fetch (BASE_URL ++ name))).take written ≠ decomp (fetch (BASE_URL ++ name))
    ∧ ensureCached fetch decomp
        ((get_filename name, (decomp (fetch (BASE_URL ++ name))).take written) :: fs) name
      = ((get_filename name, (decomp (fetch (BASE_URL ++ name))).take written) :: fs,
          get_filename name, 0) := by
  refine ⟨by simp [lookupFS], ?_, ?_⟩
  · intro heq
    have hlen := congrArg List.length heq
    rw [List.length_take] at hlen
    omega
  · unfold ensureCached
    simp [lookupFS]

/-- C10 witness: a two-byte payload interrupted after one byte: the partial
file is a cache hit and differs from the full content. -/
theorem c10_witness :
    (id (tinyFetch (BASE_URL ++ "a.bz2".toList))).take 1
      ≠ id (tinyFetch (BASE_URL ++ "a.bz2".toList)) :=
  (c10_theorem tinyFetch id [] "a.bz2".toList 1 (by decide)).2.1

/- ======================== Delta claims (C1, C2) ======================== -/

/-- Filling the NaNs of a grid difference merges into a single cellwise
operation. -/
theorem fillna_sub_eq (cur prev : Grid) :
    fillna (sub cur prev)
      = List.zipWith (fun r1 r2 => List.zipWith (fun a b => some (deltaCell a b)) r1 r2)
          cur prev := by
  unfold fillna sub
  rw [List.map_zipWith]
  congr 1
  funext r1 r2
  rw [List.map_zipWith]
  congr 1
  funext a b
  cases a <;> cases b <;> rfl

/-- A row is unchanged by NaN-filling exactly when it has no NaN cells. -/
theorem fillnaRow_eq_self_iff (r : List (Option ℚ)) :
    r.map (fun c => some (c.getD EMPY_VALUE)) = r ↔ ∀ c ∈ r, c ≠ none := by
  induction r with
  | nil => simp
  | cons c cs ih => cases c <;> simp [ih]

/-- A grid is unchanged by NaN-filling exactly when it has no NaN cells. -/
theorem fillna_eq_self_iff (g : Grid) :
    fillna g = g ↔ ∀ r ∈ g, ∀ c ∈ r, c ≠ none := by
  unfold fillna
  induction g with
  | nil => simp
  | cons r rs ih => simp [ih, fillnaRow_eq_self_iff]

/-- C1 counterexample: with `previous` absent and a current grid holding one
NaN cell, the output is NOT `current` as-is — `get_values` applies
`fillna(EMPY_VALUE)` in the no-previous branch too, so the NaN cell comes back
as the sentinel `-100500.0`. -/
theorem c1_counterexample :
    (get_values [[none]] none).1 ≠ [[none]]
    ∧ (get_values [[none]] none).1 = [[some EMPY_VALUE]] := by
  constructor
  · intro h
    simp [get_values, fillna] at h
  · norm_num [get_values, fillna]

/-- C1 (amended): with `previous` present the result is the cellwise difference
`current[i] - previous[i]` with every cell whose subtraction is undefined
(either operand NaN) replaced by the sentinel; with `previous` absent the
result is `current` with every NaN cell replaced by the sentinel
(`fillna(current)`), which equals `current` as-is exactly when `current` has
no missing cells. -/
theorem c1_theorem (cur prev : Grid) :
    (get_values cur (some prev)).1
      = List.zipWith (fun r1 r2 => List.zipWith (fun a b => some (deltaCell a b)) r1 r2)
          cur prev
    ∧ (get_values cur none).1 = fillna cur
    ∧ ((get_values cur none).1 = cur ↔ ∀ r ∈ cur, ∀ c ∈ r, c ≠ none) :=
  ⟨fillna_sub_eq cur prev, rfl, fillna_eq_self_iff cur⟩

/-- C1 witness: the cellwise characterization evaluated on a 1-by-2 pair with
one NaN cell. -/
theorem c1_witness :
    (get_values [[some 5, none]] (some [[some 2, some 3]])).1
      = List.zipWith (fun r1 r2 => List.zipWith (fun a b => some (deltaCell a b)) r1 r2)
          [[some 5, none]] [[some 2, some 3]] :=
  (c1_theorem [[some 5, none]] [[some 2, some 3]]).1

/-- C2: evaluation of both pipelines on the three-entry catalog with grids
`[[1]]`, `[[3]]`, `[[6]]`.  The async variant emits `g1 - g0 = [[2]]` then
`g2 - g1 = [[3]]` as the claim (and spec) state.  The sync variant emits
`[[2]]` then `[[4]]`: because `result -= prev_values` mutates the aliased
`dataset`, the value carried into step 2 is the step-1 difference `[[2]]`,
not entry 1's own grid `[[3]]`, so the second emitted delta is
`g2 - (g1 - g0) = [[4]]` instead of the claimed `g2 - g1 = [[3]]`. -/
theorem c2_theorem :
    syncRun [[[some 1]], [[some 3]], [[some 6]]] = [[[some 2]], [[some 4]]]
    ∧ asyncRun [[[some 1]], [[some 3]], [[some 6]]] = [[[some 2]], [[some 3]]]
    ∧ fillna (sub [[some 6]] [[some 3]]) = [[some 3]]
    ∧ syncRun [[[some 1]], [[some 3]], [[some 6]]]
        ≠ [fillna (sub [[some 3]] [[some 1]]), fillna (sub [[some 6]] [[some 3]])] := by
  refine ⟨?_, ?_, ?_, ?_⟩
  · norm_num [syncRun, syncGo, get_values, sub, fillna, subCell]
  · norm_num [asyncRun, asyncGo, asyncPairDelta, sub, fillna, subCell]
  · norm_num [sub, fillna, subCell]
  · norm_num [syncRun, syncGo, get_values, sub, fillna, subCell]

/- ======================== Header claims (C3) ======================== -/

/-- The header is 28 bytes for every dataset. -/
theorem get_header_length (d : Dataset) : (get_header d).length = 28 := rfl

/-- C3 counterexample: at the spec's own example dataset the seventh packed
integer is 1000000, not the claimed 1 — `get_header` passes the constant `1`
through `normalize_tuple`, which multiplies it by `MULT` — and the packing
truncates toward zero rather than rounding: at `lat_first = 7/4000000` the
packed value is `int(1.75) = 1` while rounding gives 2. -/
theorem c3_counterexample :
    get_header_ints exampleDS
      = [47500000, 55500000, 5000000, 17000000, 20000, 20000, 1000000]
    ∧ get_header_ints exampleDS
      ≠ [47500000, 55500000, 5000000, 17000000, 20000, 20000, 1]
    ∧ pyInt ((7 / 4000000 : ℚ) * MULT) = 1
    ∧ roundSpec ((7 / 4000000 : ℚ) * MULT) = 2 := by
  have h : get_header_ints exampleDS
      = [47500000, 55500000, 5000000, 17000000, 20000, 20000, 1000000] := by
    norm_num [get_header_ints, normalize_tuple, pyInt, MULT, exampleDS]
  refine ⟨h, by rw [h]; simp, ?_, ?_⟩
  · norm_num [pyInt, MULT]
    decide
  · norm_num [roundSpec, MULT]
    decide

/-- C3 (amended): `serializeHeader` packs, in fixed field order, the six
values lat_first, lat_last, lon_first, lon_last, i_increment, j_increment,
each multiplied by 1e6 and truncated toward zero (Python `int()`), plus the
constant `1` passed through the same scaling (so the seventh integer is
1000000), as seven little-endian signed 32-bit integers — 28 bytes; at the
example coordinates the packed integers are
`[47500000, 55500000, 5000000, 17000000, 20000, 20000, 1000000]`. -/
theorem c3_theorem (d : Dataset) :
    get_header d
      = int32le (pyInt (d.lat_first * MULT)) ++ int32le (pyInt (d.lat_last * MULT))
        ++ int32le (pyInt (d.lon_first * MULT)) ++ int32le (pyInt (d.lon_last * MULT))
        ++ int32le (pyInt (d.i_inc * MULT)) ++ int32le (pyInt (d.j_inc * MULT))
        ++ int32le (pyInt ((1 : ℚ) * MULT))
    ∧ (get_header d).length = 28
    ∧ get_header_ints exampleDS
      = [47500000, 55500000, 5000000, 17000000, 20000, 20000, 1000000] := by
  refine ⟨?_, get_header_length d, ?_⟩
  · simp [get_header, get_header_ints, normalize_tuple, List.append_assoc]
  · norm_num [get_header_ints, normalize_tuple, pyInt, MULT, exampleDS]

/- ======================== Writer claims (C4) ======================== -/

/-- Each packed row contributes four bytes per cell. -/
theorem packRow_length (row : List Nat) : (packRow row).length = 4 * row.length := by
  induction row with
  | nil => rfl
  | cons x xs ih =>
    simp only [packRow, List.map_cons, List.flatten_cons, List.length_append] at *
    simp [le32, ih]
    omega

/-- Payload size of a rectangular grid: four bytes per cell. -/
theorem payload_length (values : List (List Nat)) (cols : Nat)
    (hc : ∀ row ∈ values, row.length = cols) :
    ((values.map packRow).flatten).length = 4 * (values.length * cols) := by
  induction values with
  | nil => simp
  | cons v vs ih =>
    simp only [List.map_cons, List.flatten_cons, List.length_append, packRow_length]
    rw [hc v (by simp), ih (fun r hr => hc r (by simp [hr]))]
    simp [List.length_cons]
    ring

/-- The async accumulate-then-write variant produces the same bytes as the
sync streaming variant. -/
theorem write_data_foldl (values : List (List Nat)) :
    ∀ init : List Nat,
      values.foldl (fun acc row => acc ++ packRow row) init
        = init ++ (values.map packRow).flatten := by
  induction values with
  | nil => intro init; simp
  | cons v vs ih =>
    intro init
    rw [List.foldl_cons, ih]
    simp [List.append_assoc]

/-- C4: for every dataset and every rectangular payload of `rows` rows of
`cols` cells, the bytes written to `PRATE.wgf4` are exactly the 28-byte
header, then the 4 bytes of the float32 sentinel, then the row-major payload
of `4 * rows * cols` bytes, and nothing else: the total size is
`32 + 4 * rows * cols`, and the async variant's accumulated buffer equals the
sync variant's streamed bytes. -/
theorem c4_theorem (d : Dataset) (values : List (List Nat)) (rows cols : Nat)
    (hr : values.length = rows) (hc : ∀ row ∈ values, row.length = cols) :
    (write_data (get_header d) values).length = 32 + 4 * (rows * cols)
    ∧ (write_data (get_header d) values).take 28 = get_header d
    ∧ ((write_data (get_header d) values).drop 28).take 4 = le32 EMPY_F32
    ∧ (write_data (get_header d) values).drop 32 = (values.map packRow).flatten
    ∧ write_data_async (get_header d) values = write_data (get_header d) values := by
  subst hr
  have h28 := get_header_length d
  refine ⟨?_, ?_, ?_, ?_, ?_⟩
  · simp [write_data, payload_length values cols hc, le32, h28]
    ring
  · rw [write_data, List.append_assoc, List.take_left' h28]
  · rw [write_data, List.append_assoc, List.drop_left' h28,
      List.take_left' (show (le32 EMPY_F32).length = 4 from rfl)]
  · have h32 : (get_header d ++ le32 EMPY_F32).length = 32 := by
      simp [h28, le32]
    rw [write_data, List.drop_left' h32]
  · rw [write_data_async, write_data, write_data_foldl, List.append_assoc]

/-- C4 witness: a 2-by-3 payload with the example header: 56 bytes total. -/
theorem c4_witness :
    (write_data (get_header exampleDS) [[1, 2, 3], [4, 5, 6]]).length = 32 + 4 * (2 * 3) :=
  (c4_theorem exampleDS [[1, 2, 3], [4, 5, 6]] 2 3 rfl (by decide)).1

/- ======================== Orchestration claims (C8) ======================== -/

/-- If every index up to the aborting one succeeds and index `i` fails, the
async processing stage processes exactly the indices before `i` and aborts at
`i`. -/
theorem asyncMainRun_abort (fails : Nat → Bool) :
    ∀ m a i, a ≤ i → i < a + m → fails i = true →
      (∀ j, a ≤ j → j < i → fails j = false) →
      asyncMainRun fails (List.range' a m) = (List.range' a (i - a), some i) := by
  intro m
  induction m with
  | zero => intro a i h1 h2 h3 h4; omega
  | succ m ih =>
    intro a i h1 h2 h3 h4
    rw [List.range'_succ]
    by_cases hai : a = i
    · subst hai
      simp [asyncMainRun, h3]
    · have hfa : fails a = false := h4 a (Nat.le_refl a) (by omega)
      simp only [asyncMainRun, hfa, Bool.false_eq_true, if_false]
      rw [ih (a + 1) i (by omega) (by omega) h3 (fun j hj1 hj2 => h4 j (by omega) hj2)]
      have hia : i - a = (i - (a + 1)) + 1 := by omega
      rw [hia, List.range'_succ]

/-- C8: when a processing-stage step fails, the sync variant leaves the queue
unchanged — `filenames.popleft()` is skipped, the `except` branch only prints
(no sleep, no attempt counter), and the `while` loop immediately retries the
same head entry — so under a persistently failing entry the queue and the
emitted output are unchanged after any number `n` of iterations (no attempt
cap, never advancing past the entry); the async variant has no `try` around
`process`, so the first failing index aborts the processing stage, leaving
exactly the indices before it processed. -/
theorem c8_theorem (fails : Nat → Bool) :
    (∀ n k (e : List Char) rest, (∀ m, fails m = true) →
      syncLoopRun fails n k (e :: rest) = (e :: rest, []))
    ∧ (∀ i n, 1 ≤ i → i < n → fails i = true →
        (∀ j, 1 ≤ j → j < i → fails j = false) →
        asyncMain fails n = (List.range' 1 (i - 1), some i)) := by
  constructor
  · intro n k e rest h
    induction n generalizing k with
    | zero => rfl
    | succ m ih =>
      simp only [syncLoopRun, h k, if_true]
      exact ih (k + 1)
  · intro i n h1 h2 h3 h4
    unfold asyncMain
    exact asyncMainRun_abort fails (n - 1) 1 i h1 (by omega) h3 h4

/-- C8 witness: a persistently failing head entry survives five sync
iterations with no output, and an async run over four entries aborts at the
failing index 2 having processed only index 1. -/
theorem c8_witness :
    syncLoopRun (fun _ => true) 5 0 ["a".toList] = (["a".toList], [])
    ∧ asyncMain (fun k => k == 2) 4 = (List.range' 1 1, some 2) :=
  ⟨(c8_theorem (fun _ => true)).1 5 0 "a".toList [] (fun _ => rfl),
    (c8_theorem (fun k => k == 2)).2 2 4 (by omega) (by omega) rfl
      (fun j hj1 hj2 => by
        have hje : j = 1 := by omega
        subst hje
        rfl)⟩

/-- C3 witness: the field-order decomposition of the header evaluated at the
example dataset. -/
theorem c3_witness :
    get_header exampleDS
      = int32le (pyInt (exampleDS.lat_first * MULT)) ++ int32le (pyInt (exampleDS.lat_last * MULT))
        ++ int32le (pyInt (exampleDS.lon_first * MULT)) ++ int32le (pyInt (exampleDS.lon_last * MULT))
        ++ int32le (pyInt (exampleDS.i_inc * MULT)) ++ int32le (pyInt (exampleDS.j_inc * MULT))
        ++ int32le (pyInt ((1 : ℚ) * MULT)) :=
  (c3_theorem exampleDS).1
